import Mathlib

/-!
Shallow embedding of `youtube_video_snippet.py`, centred on
`YoutubeVideoSnippet.collect_video_snippets` (the Fetch Loop), record
emission (tombstones and snippets with timestamp normalization), the
post-loop publication/catalog steps, and the identifier-discovery query
construction.
-/

namespace YVS

/-! ## String helpers mirroring the Python string operations used by the code -/

/-- Does the character list start with `pat`? -/
def leadsWith : List Char → List Char → Bool
  | [], _ => true
  | _ :: _, [] => false
  | p :: ps, c :: cs => p = c && leadsWith ps cs

/-- Does the character list contain `pat` as a contiguous run? -/
def containsSeq (pat : List Char) : List Char → Bool
  | [] => pat.isEmpty
  | c :: cs => leadsWith pat (c :: cs) || containsSeq pat cs

/-- Python's `pat in s` substring test, as used in `"403" in str(e)`. -/
def strContains (s pat : String) : Bool :=
  containsSeq pat.data s.data

/-- Python's `s.rstrip('Z')`: remove every trailing `'Z'` character. -/
def rstripZ (s : String) : String :=
  ⟨((s.data.reverse).dropWhile (fun c => c = 'Z')).reverse⟩

/-- The character rewrite applied by `replace('T', ' ')`. -/
def tToSpace (c : Char) : Char :=
  if c = 'T' then ' ' else c

/-- Python's `s.replace('T', ' ')`: replace every `'T'` by a space. -/
def replaceTBySpace (s : String) : String :=
  ⟨s.data.map tToSpace⟩

/-- Line 505 of the source:
`item['snippet']['publishedAt'].rstrip('Z').replace('T', ' ')`. -/
def normalizePublishedAt (s : String) : String :=
  replaceTBySpace (rstripZ s)

/-! ## Wall-clock stamp: `datetime.utcnow().strftime("%Y-%m-%d %H:%M:%S.%f")[:-3]` -/

/-- A UTC wall-clock instant, the external input read by `datetime.utcnow()`. -/
structure Timestamp where
  year : Nat
  month : Nat
  day : Nat
  hour : Nat
  minute : Nat
  second : Nat
  micro : Nat
deriving DecidableEq

/-- Decimal digit characters of `n`, most significant first; `fuel`
bounds the recursion depth (any `fuel ≥ n` is enough). -/
def natDecChars (fuel n : Nat) : List Char :=
  match fuel with
  | 0 => []
  | f + 1 => if n = 0 then [] else natDecChars f (n / 10) ++ [Nat.digitChar (n % 10)]

/-- Decimal rendering of a natural number. -/
def natDecimal (n : Nat) : String :=
  if n = 0 then "0" else ⟨natDecChars n n⟩

/-- Zero-pad a decimal number on the left to width `w`, as `strftime`'s
`%02d`/`%06d` fields do. -/
def padLeftZeros (w : Nat) (n : Nat) : String :=
  ⟨List.replicate (w - (natDecimal n).length) '0'⟩ ++ natDecimal n

/-- The `"%Y-%m-%d %H:%M:%S"` part of the stamp. -/
def dateSecondsPart (t : Timestamp) : String :=
  padLeftZeros 4 t.year ++ "-" ++ padLeftZeros 2 t.month ++ "-" ++
  padLeftZeros 2 t.day ++ " " ++ padLeftZeros 2 t.hour ++ ":" ++
  padLeftZeros 2 t.minute ++ ":" ++ padLeftZeros 2 t.second

/-- The format `strftime("%Y-%m-%d %H:%M:%S.%f")`: seconds part, a dot, and the
microsecond field zero-padded to six digits. -/
def strftimeMicro (t : Timestamp) : String :=
  dateSecondsPart t ++ "." ++ padLeftZeros 6 t.micro

/-- Python's `s[:-3]`: drop the last three characters. -/
def pyDropLast3 (s : String) : String :=
  ⟨s.data.take (s.data.length - 3)⟩

/-- The `retrieved_at` value stamped on every record (source lines 500, 506):
`datetime.utcnow().strftime("%Y-%m-%d %H:%M:%S.%f")[:-3]`. -/
def retrievedAtStamp (t : Timestamp) : String :=
  pyDropLast3 (strftimeMicro t)

/-! ## Records emitted to the staging JSON file -/

/-- Line 501 of the source. -/
def unavailableDescription : String :=
  "Video unavailable. It has probably been removed by the user."

/-- One item of the API response's `items` list: its
`snippet.publishedAt` field plus the rest of the payload, untouched. -/
structure Item where
  publishedAt : String
  payload : String
deriving DecidableEq

/-- A line written to the staging JSON file: either a tombstone for an
identifier whose response had no items (lines 498-502), or a snippet
record for one returned item (lines 503-507). -/
inductive Record where
  | tombstone (id : String) (retrievedAt : String) (descr : String)
  | snippet (publishedAt : String) (payload : String) (retrievedAt : String)
deriving DecidableEq

/-- Lines 498-507: emit one tombstone when the item list is empty,
otherwise one record per item with the publish timestamp normalized and a
`retrieved_at` stamp. -/
def emitRecords (videoId : String) (stamp : String) (items : List Item) :
    List Record :=
  if items.length = 0 then
    [Record.tombstone videoId stamp unavailableDescription]
  else
    items.map (fun it =>
      Record.snippet (normalizePublishedAt it.publishedAt) it.payload stamp)

/-! ## The per-identifier retry loop (lines 431-497) -/

/-- The constant `errno.ECONNRESET`. -/
def ECONNRESET : Int := 104

/-- The outcome the environment hands one `execute()` call: a response
with its item list, a `socket.error` with an errno, or an `HttpError`
whose text is inspected by the handler. -/
inductive Attempt where
  | success (items : List Item)
  | socketErr (errnoVal : Int)
  | httpErr (text : String)
deriving DecidableEq

/-- Observable side effects of the retry loop: a credential rotation
(cursor advance plus client rebuild, lines 470-488), the 30-second 503
sleep (line 493), or the 60-second reset sleep plus rebuild (lines
447-462). -/
inductive Event where
  | rotateCredential (newKey : Nat)
  | sleepServiceUnavailable
  | sleepConnectionReset
deriving DecidableEq

/-- Why the loop re-raises and aborts the run. -/
inductive FatalReason where
  | otherSocketError
  | connectionResetBoundExceeded
  | credentialsExhausted
  | serviceUnavailableBoundExceeded
  | unclassifiedHttpError
deriving DecidableEq

/-- Result of running the `while no_response:` loop on a script of
attempt outcomes: a response together with the final credential cursor
and the emitted events, a re-raised fatal error, or `outOfScript` when
the script ended while the loop was still retrying (the real loop would
issue another request; no claim is settled on such scripts). -/
inductive StepResult where
  | gotResponse (items : List Item) (finalKey : Nat) (events : List Event)
  | fatal (reason : FatalReason) (finalKey : Nat) (events : List Event)
  | outOfScript (finalKey : Nat) (events : List Event)
deriving DecidableEq

/-- Prefix one event onto a result's event trace. -/
def consEvent (e : Event) : StepResult → StepResult
  | .gotResponse items k evs => .gotResponse items k (e :: evs)
  | .fatal r k evs => .fatal r k (e :: evs)
  | .outOfScript k evs => .outOfScript k (e :: evs)

/-- Final credential cursor of a result. -/
def StepResult.finalKeyOf : StepResult → Nat
  | .gotResponse _ k _ => k
  | .fatal _ k _ => k
  | .outOfScript k _ => k

/-- Event trace of a result. -/
def StepResult.eventsOf : StepResult → List Event
  | .gotResponse _ _ evs => evs
  | .fatal _ _ evs => evs
  | .outOfScript _ evs => evs

/-- The `while no_response:` loop of `collect_video_snippets`
(lines 435-497), one script entry per `execute()` call.
`numKeys` is `len(self.credentials)`, `key` is `current_key`,
`su` is `service_unavailable`, `cr` is `connection_reset_by_peer`. -/
def fetchLoop (numKeys : Nat) (key su cr : Nat) : List Attempt → StepResult
  | [] => .outOfScript key []
  | a :: rest =>
    match a with
    | .success items => .gotResponse items key []
    | .socketErr en =>
      if en ≠ ECONNRESET then
        .fatal .otherSocketError key []
      else if cr + 1 ≤ 10 then
        consEvent .sleepConnectionReset (fetchLoop numKeys key su (cr + 1) rest)
      else
        .fatal .connectionResetBoundExceeded key []
    | .httpErr t =>
      if strContains t "403" then
        if key + 1 ≥ numKeys then
          .fatal .credentialsExhausted (key + 1) []
        else
          consEvent (.rotateCredential (key + 1))
            (fetchLoop numKeys (key + 1) su cr rest)
      else if strContains t "503" then
        if su + 1 ≤ 10 then
          consEvent .sleepServiceUnavailable (fetchLoop numKeys key (su + 1) cr rest)
        else
          .fatal .serviceUnavailableBoundExceeded key []
      else
        .fatal .unclassifiedHttpError key []

/-! ## Processing the pending identifiers -/

/-- One row of `video_ids.csv` together with the environment's behaviour
for it: the wall clock read at emission time and the scripted outcome of
each `execute()` call. -/
structure PendingIdentifier where
  videoId : String
  now : Timestamp
  script : List Attempt
deriving DecidableEq

/-- How a run (or the handling of one identifier) ended. -/
inductive RunOutcome where
  | completed
  | aborted (r : FatalReason)
  | incomplete
deriving DecidableEq

/-- Result of handling one identifier. -/
structure OneResult where
  records : List Record
  finalKey : Nat
  outcome : RunOutcome
deriving DecidableEq

/-- One iteration of the `for video_id in reader:` loop (lines 426-507):
the retry counters start at 0 for each identifier, the credential cursor
is carried over. -/
def processOne (numKeys key : Nat) (p : PendingIdentifier) : OneResult :=
  match fetchLoop numKeys key 0 0 p.script with
  | .gotResponse items k _ =>
    ⟨emitRecords p.videoId (retrievedAtStamp p.now) items, k, .completed⟩
  | .fatal r k _ => ⟨[], k, .aborted r⟩
  | .outOfScript k _ => ⟨[], k, .incomplete⟩

/-- The whole `for` loop: records written to the staging file, the final
credential cursor, and whether the loop ran to completion. A fatal error
propagates out of the loop immediately, leaving later identifiers
unprocessed. -/
def processAll (numKeys key : Nat) : List PendingIdentifier → OneResult
  | [] => ⟨[], key, .completed⟩
  | p :: rest =>
    let r := processOne numKeys key p
    match r.outcome with
    | .completed =>
      let s := processAll numKeys r.finalKey rest
      ⟨r.records ++ s.records, s.finalKey, s.outcome⟩
    | o => ⟨r.records, r.finalKey, o⟩

/-! ## Post-loop publication and catalog statements (lines 509-522) -/

/-- A catalog statement issued through Athena after upload. -/
inductive CatalogOp where
  | dropTable (name : String)
  | createTable (name : String)
  | repairTable (name : String)
deriving DecidableEq

/-- Observable result of a whole `collect_video_snippets` run. -/
structure RunResult where
  staged : List Record
  uploaded : Bool
  catalogOps : List CatalogOp
  outcome : RunOutcome
deriving DecidableEq

/-- The method `collect_video_snippets`, lines 422-522: the fetch loop writes the
staging file; only when it completes are the file compressed and
uploaded and the three catalog statements issued (lines 509-522). An
exception unwinds past those lines, so an aborted run uploads nothing
and issues no catalog statement. -/
def collectVideoSnippets (numKeys : Nat) (pending : List PendingIdentifier) :
    RunResult :=
  let s := processAll numKeys 0 pending
  match s.outcome with
  | .completed =>
    ⟨s.records, true,
      [CatalogOp.dropTable "youtube_video_snippet",
       CatalogOp.createTable "youtube_video_snippet",
       CatalogOp.repairTable "youtube_video_snippet"], .completed⟩
  | o => ⟨s.records, false, [], o⟩

/-! ## Identifier discovery query construction (lines 390-400) -/

/-- The two source queries the code can include, each in a variant with
or without the `not in (select id from youtube_video_snippet)` exclusion
(`SELECT_TWITTER_STREAM_VIDEO` / `EXTRA_TWITTER_STREAM_VIDEO` and
`SELECT_YOUTUBE_RELATED_VIDEO` / `EXTRA_YOUTUBE_RELATED_VIDEO`). -/
inductive SourceQuery where
  | twitterStream (excludeSeen : Bool)
  | youtubeRelated (excludeSeen : Bool)
deriving DecidableEq

/-- Lines 390-400: the exclusion variant is chosen by whether the output
table `youtube_video_snippet` exists; the stream query is always in the
list, the related-video query only when `youtube_related_video` exists.
`tableExists` is `athena.table_exists`. -/
def buildQueries (tableExists : String → Bool) : List SourceQuery :=
  let excl := tableExists "youtube_video_snippet"
  let queries := [SourceQuery.twitterStream excl]
  if tableExists "youtube_related_video" then
    queries ++ [SourceQuery.youtubeRelated excl]
  else
    queries

/-! ## Derived notions used by the theorems -/

/-- Number of credential rotations recorded in an event trace. -/
def countRotations (evs : List Event) : Nat :=
  evs.countP (fun e => match e with
    | .rotateCredential _ => true
    | _ => false)

/-- The one cursor advance that is not followed by a client rebuild: the
final advance of an exhausting authorization failure (line 470 before
the `raise` of line 472). -/
def exhaustedBump : StepResult → Nat
  | .fatal .credentialsExhausted _ _ => 1
  | _ => 0

/-- When the loop starts with a cursor inside the pool, it only ever
continues with a cursor inside the pool: on a response the final cursor
is still inside the pool, and on credential exhaustion it is exactly at
or below the pool length. -/
def withinPool (numKeys : Nat) : StepResult → Prop
  | .gotResponse _ k _ => k < numKeys
  | .fatal .credentialsExhausted k _ => k ≤ numKeys
  | _ => True

/-- The three-character millisecond field that survives the `[:-3]`
truncation of the six-digit `%f` microsecond field. -/
def milliPart (t : Timestamp) : String :=
  ⟨(padLeftZeros 6 t.micro).data.take 3⟩

/-! ## Helper lemmas about the retry loop -/

/-- Prefixing an event does not change the final credential cursor. -/
theorem consEvent_finalKeyOf (e : Event) (r : StepResult) :
    (consEvent e r).finalKeyOf = r.finalKeyOf := by
  cases r <;> rfl

/-- Prefixing an event conses it onto the trace. -/
theorem consEvent_eventsOf (e : Event) (r : StepResult) :
    (consEvent e r).eventsOf = e :: r.eventsOf := by
  cases r <;> rfl

theorem strContains_503_403 : strContains "503" "403" = false := by decide

theorem strContains_503_503 : strContains "503" "503" = true := by decide

/-- Step lemma: a successful call ends the loop at the current cursor. -/
theorem fetchLoop_success (numKeys key su cr : Nat) (items : List Item)
    (rest : List Attempt) :
    fetchLoop numKeys key su cr (Attempt.success items :: rest) =
      .gotResponse items key [] := rfl

/-- Step lemma: a 403-marked error with a spare credential rotates the
cursor by one and retries with unchanged backoff counters. -/
theorem fetchLoop_auth_rotate (numKeys key su cr : Nat) (t : String)
    (rest : List Attempt) (h403 : strContains t "403" = true)
    (hk : ¬ key + 1 ≥ numKeys) :
    fetchLoop numKeys key su cr (Attempt.httpErr t :: rest) =
      consEvent (.rotateCredential (key + 1))
        (fetchLoop numKeys (key + 1) su cr rest) := by
  simp [fetchLoop, h403, hk]

/-- Step lemma: a 403-marked error with no spare credential re-raises. -/
theorem fetchLoop_auth_exhaust (numKeys key su cr : Nat) (t : String)
    (rest : List Attempt) (h403 : strContains t "403" = true)
    (hk : key + 1 ≥ numKeys) :
    fetchLoop numKeys key su cr (Attempt.httpErr t :: rest) =
      .fatal .credentialsExhausted (key + 1) [] := by
  simp [fetchLoop, h403, hk]

/-- Step lemma: a 503-marked error below the bound sleeps and retries
with the same credential. -/
theorem fetchLoop_su_sleep (numKeys key su cr : Nat) (t : String)
    (rest : List Attempt) (h403 : strContains t "403" = false)
    (h503 : strContains t "503" = true) (hsu : su + 1 ≤ 10) :
    fetchLoop numKeys key su cr (Attempt.httpErr t :: rest) =
      consEvent .sleepServiceUnavailable
        (fetchLoop numKeys key (su + 1) cr rest) := by
  simp [fetchLoop, h403, h503, hsu]

/-- Step lemma: a 503-marked error beyond the bound re-raises. -/
theorem fetchLoop_su_bound (numKeys key su cr : Nat) (t : String)
    (rest : List Attempt) (h403 : strContains t "403" = false)
    (h503 : strContains t "503" = true) (hsu : ¬ su + 1 ≤ 10) :
    fetchLoop numKeys key su cr (Attempt.httpErr t :: rest) =
      .fatal .serviceUnavailableBoundExceeded key [] := by
  simp [fetchLoop, h403, h503, hsu]

/-- Step lemma: a connection reset below the bound sleeps, rebuilds the
client with the same credential, and retries. -/
theorem fetchLoop_reset_sleep (numKeys key su cr : Nat)
    (rest : List Attempt) (hcr : cr + 1 ≤ 10) :
    fetchLoop numKeys key su cr (Attempt.socketErr ECONNRESET :: rest) =
      consEvent .sleepConnectionReset
        (fetchLoop numKeys key su (cr + 1) rest) := by
  simp [fetchLoop, hcr]

/-- Step lemma: a connection reset beyond the bound re-raises. -/
theorem fetchLoop_reset_bound (numKeys key su cr : Nat)
    (rest : List Attempt) (hcr : ¬ cr + 1 ≤ 10) :
    fetchLoop numKeys key su cr (Attempt.socketErr ECONNRESET :: rest) =
      .fatal .connectionResetBoundExceeded key [] := by
  simp [fetchLoop, hcr]

/-- Step lemma: a socket error with a different errno re-raises at once. -/
theorem fetchLoop_sock_other (numKeys key su cr : Nat) (en : Int)
    (rest : List Attempt) (hen : en ≠ ECONNRESET) :
    fetchLoop numKeys key su cr (Attempt.socketErr en :: rest) =
      .fatal .otherSocketError key [] := by
  simp [fetchLoop, hen]

/-- Step lemma: an error text matching neither marker re-raises at once. -/
theorem fetchLoop_unclassified (numKeys key su cr : Nat) (t : String)
    (rest : List Attempt) (h403 : strContains t "403" = false)
    (h503 : strContains t "503" = false) :
    fetchLoop numKeys key su cr (Attempt.httpErr t :: rest) =
      .fatal .unclassifiedHttpError key [] := by
  simp [fetchLoop, h403, h503]

/-- A run of `m + 1` consecutive 503 failures starting with counter `su`
such that `su + m = 10` sleeps `m` times and then re-raises; the
remaining script is never consulted. -/
theorem fetchLoop_su_run (numKeys key cr : Nat) (rest : List Attempt) :
    ∀ m su, su + m = 10 →
      fetchLoop numKeys key su cr
          (List.replicate (m + 1) (Attempt.httpErr "503") ++ rest) =
        .fatal .serviceUnavailableBoundExceeded key
          (List.replicate m .sleepServiceUnavailable) := by
  intro m
  induction m with
  | zero =>
    intro su hsu
    simp only [List.replicate_succ, List.replicate_zero, List.cons_append,
      List.nil_append]
    rw [fetchLoop_su_bound numKeys key su cr _ _ strContains_503_403
      strContains_503_503 (by omega)]
  | succ m ih =>
    intro su hsu
    rw [List.replicate_succ, List.cons_append,
      fetchLoop_su_sleep numKeys key su cr _ _ strContains_503_403
        strContains_503_503 (by omega),
      ih (su + 1) (by omega), List.replicate_succ]
    rfl

/-- A run of `m` consecutive 503 failures followed by a success, with
`su + m = 10`, sleeps `m` times and then returns the response with the
same credential. -/
theorem fetchLoop_su_recover (numKeys key cr : Nat) (items : List Item)
    (rest : List Attempt) :
    ∀ m su, su + m = 10 →
      fetchLoop numKeys key su cr
          (List.replicate m (Attempt.httpErr "503") ++ Attempt.success items :: rest) =
        .gotResponse items key (List.replicate m .sleepServiceUnavailable) := by
  intro m
  induction m with
  | zero =>
    intro su hsu
    simp only [List.replicate_zero, List.nil_append]
    exact fetchLoop_success numKeys key su cr items rest
  | succ m ih =>
    intro su hsu
    simp only [List.replicate_succ, List.cons_append]
    rw [fetchLoop_su_sleep numKeys key su cr _ _ strContains_503_403
      strContains_503_503 (by omega), ih (su + 1) (by omega)]
    rfl

/-! ## Credential-cursor accounting -/

theorem countRotations_cons_rotate (k : Nat) (evs : List Event) :
    countRotations (.rotateCredential k :: evs) = countRotations evs + 1 := by
  simp [countRotations, List.countP_cons]

theorem countRotations_cons_sleep_su (evs : List Event) :
    countRotations (.sleepServiceUnavailable :: evs) = countRotations evs := by
  simp [countRotations, List.countP_cons]

theorem countRotations_cons_sleep_cr (evs : List Event) :
    countRotations (.sleepConnectionReset :: evs) = countRotations evs := by
  simp [countRotations, List.countP_cons]

theorem exhaustedBump_consEvent (e : Event) (r : StepResult) :
    exhaustedBump (consEvent e r) = exhaustedBump r := by
  cases r with
  | gotResponse items k evs => rfl
  | outOfScript k evs => rfl
  | fatal reason k evs => cases reason <;> rfl

/-- Cursor accounting: the final cursor is the initial cursor plus one
per rotation event, plus one more exactly when the loop died of
credential exhaustion. In particular the cursor never decreases and
backoff sleeps leave it unchanged. -/
theorem fetchLoop_key_accounting (numKeys : Nat) :
    ∀ (s : List Attempt) (key su cr : Nat),
      (fetchLoop numKeys key su cr s).finalKeyOf =
        key + countRotations (fetchLoop numKeys key su cr s).eventsOf +
          exhaustedBump (fetchLoop numKeys key su cr s) := by
  intro s
  induction s with
  | nil => intro key su cr; rfl
  | cons a rest ih =>
    intro key su cr
    cases a with
    | success items => rfl
    | socketErr en =>
      by_cases hen : en ≠ ECONNRESET
      · rw [fetchLoop_sock_other numKeys key su cr en rest hen]; rfl
      · push_neg at hen
        subst hen
        by_cases hcr : cr + 1 ≤ 10
        · rw [fetchLoop_reset_sleep numKeys key su cr rest hcr,
            consEvent_finalKeyOf, consEvent_eventsOf, exhaustedBump_consEvent,
            countRotations_cons_sleep_cr]
          exact ih key su (cr + 1)
        · rw [fetchLoop_reset_bound numKeys key su cr rest hcr]; rfl
    | httpErr t =>
      by_cases h403 : strContains t "403" = true
      · by_cases hk : key + 1 ≥ numKeys
        · rw [fetchLoop_auth_exhaust numKeys key su cr t rest h403 hk]; rfl
        · rw [fetchLoop_auth_rotate numKeys key su cr t rest h403 hk,
            consEvent_finalKeyOf, consEvent_eventsOf, exhaustedBump_consEvent,
            countRotations_cons_rotate, ih (key + 1) su cr]
          omega
      · rw [Bool.not_eq_true] at h403
        by_cases h503 : strContains t "503" = true
        · by_cases hsu : su + 1 ≤ 10
          · rw [fetchLoop_su_sleep numKeys key su cr t rest h403 h503 hsu,
              consEvent_finalKeyOf, consEvent_eventsOf, exhaustedBump_consEvent,
              countRotations_cons_sleep_su]
            exact ih key (su + 1) cr
          · rw [fetchLoop_su_bound numKeys key su cr t rest h403 h503 hsu]; rfl
        · rw [Bool.not_eq_true] at h503
          rw [fetchLoop_unclassified numKeys key su cr t rest h403 h503]; rfl

/-- The cursor never decreases over one identifier's retry loop. -/
theorem fetchLoop_key_mono (numKeys : Nat) (s : List Attempt)
    (key su cr : Nat) :
    key ≤ (fetchLoop numKeys key su cr s).finalKeyOf := by
  rw [fetchLoop_key_accounting]
  omega

theorem withinPool_consEvent (numKeys : Nat) (e : Event) (r : StepResult)
    (h : withinPool numKeys r) : withinPool numKeys (consEvent e r) := by
  cases r with
  | gotResponse items k evs => exact h
  | outOfScript k evs => trivial
  | fatal reason k evs => cases reason <;> exact h

theorem fetchLoop_withinPool (numKeys : Nat) :
    ∀ (s : List Attempt) (key su cr : Nat), key < numKeys →
      withinPool numKeys (fetchLoop numKeys key su cr s) := by
  intro s
  induction s with
  | nil => intro key su cr _; trivial
  | cons a rest ih =>
    intro key su cr hkey
    cases a with
    | success items => exact hkey
    | socketErr en =>
      by_cases hen : en ≠ ECONNRESET
      · rw [fetchLoop_sock_other numKeys key su cr en rest hen]; trivial
      · push_neg at hen
        subst hen
        by_cases hcr : cr + 1 ≤ 10
        · rw [fetchLoop_reset_sleep numKeys key su cr rest hcr]
          exact withinPool_consEvent _ _ _ (ih key su (cr + 1) hkey)
        · rw [fetchLoop_reset_bound numKeys key su cr rest hcr]; trivial
    | httpErr t =>
      by_cases h403 : strContains t "403" = true
      · by_cases hk : key + 1 ≥ numKeys
        · rw [fetchLoop_auth_exhaust numKeys key su cr t rest h403 hk]
          exact Nat.succ_le_of_lt hkey
        · rw [fetchLoop_auth_rotate numKeys key su cr t rest h403 hk]
          exact withinPool_consEvent _ _ _ (ih (key + 1) su cr (by omega))
      · rw [Bool.not_eq_true] at h403
        by_cases h503 : strContains t "503" = true
        · by_cases hsu : su + 1 ≤ 10
          · rw [fetchLoop_su_sleep numKeys key su cr t rest h403 h503 hsu]
            exact withinPool_consEvent _ _ _ (ih key (su + 1) cr hkey)
          · rw [fetchLoop_su_bound numKeys key su cr t rest h403 h503 hsu]
            trivial
        · rw [Bool.not_eq_true] at h503
          rw [fetchLoop_unclassified numKeys key su cr t rest h403 h503]
          trivial

/-- The cursor never decreases across the whole run. -/
theorem processAll_key_mono (numKeys : Nat) :
    ∀ (pending : List PendingIdentifier) (key : Nat),
      key ≤ (processAll numKeys key pending).finalKey := by
  intro pending
  induction pending with
  | nil => intro key; exact Nat.le_refl key
  | cons p rest ih =>
    intro key
    have hone : key ≤ (processOne numKeys key p).finalKey := by
      unfold processOne
      have := fetchLoop_key_mono numKeys p.script key 0 0
      cases hfl : fetchLoop numKeys key 0 0 p.script with
      | gotResponse items k evs => rw [hfl] at this; exact this
      | fatal r k evs => rw [hfl] at this; exact this
      | outOfScript k evs => rw [hfl] at this; exact this
    unfold processAll
    cases houtcome : (processOne numKeys key p).outcome with
    | completed =>
      simp only []
      rw [houtcome]
      exact Nat.le_trans hone (ih (processOne numKeys key p).finalKey)
    | aborted r =>
      simp only []
      rw [houtcome]
      exact hone
    | incomplete =>
      simp only []
      rw [houtcome]
      exact hone

/-! ## Helper lemmas about emission, the timestamp format and normalization -/

/-- One tombstone for an empty item list, one record per item otherwise. -/
theorem emitRecords_length (videoId stamp : String) (items : List Item) :
    (emitRecords videoId stamp items).length = max 1 items.length := by
  cases items with
  | nil => rfl
  | cons it rest =>
    simp [emitRecords, Nat.max_eq_right (Nat.succ_le_succ (Nat.zero_le _))]

/-- A number below `10 ^ k` renders to at most `k` decimal digits. -/
theorem natDecChars_length_le :
    ∀ (fuel n k : Nat), n < 10 ^ k → (natDecChars fuel n).length ≤ k := by
  intro fuel
  induction fuel with
  | zero => intro n k _; simp [natDecChars]
  | succ f ih =>
    intro n k hn
    by_cases h0 : n = 0
    · simp [natDecChars, h0]
    · have hk : 1 ≤ k := by
        by_contra hk
        have hkz : k = 0 := by omega
        subst hkz
        simp at hn
        omega
      have hdiv : n / 10 < 10 ^ (k - 1) := by
        have h10 : (0 : Nat) < 10 := by omega
        rw [Nat.div_lt_iff_lt_mul h10]
        calc n < 10 ^ k := hn
        _ = 10 ^ (k - 1) * 10 := by
          rw [← Nat.pow_succ]
          congr 1
          omega
      have := ih (n / 10) (k - 1) hdiv
      simp only [natDecChars, if_neg h0, List.length_append, List.length_cons,
        List.length_nil]
      omega

/-- Below one million the decimal rendering has at most six characters. -/
theorem natDecimal_length_le_6 (n : Nat) (h : n < 1000000) :
    (natDecimal n).length ≤ 6 := by
  by_cases h0 : n = 0
  · subst h0; decide
  · have : (natDecChars n n).length ≤ 6 :=
      natDecChars_length_le n n 6 (by omega)
    simpa [natDecimal, h0] using this

/-- The padded `%06d` microsecond field has length `max 6 L`. -/
theorem padLeftZeros_data_length (w n : Nat) :
    (padLeftZeros w n).data.length = (w - (natDecimal n).length) + (natDecimal n).length := by
  simp [padLeftZeros, String.data_append]

/-- With microseconds below one million the `%06d` field is exactly six
characters long. -/
theorem padLeftZeros6_micro_length (n : Nat) (h : n < 1000000) :
    (padLeftZeros 6 n).data.length = 6 := by
  have := natDecimal_length_le_6 n h
  have hlen : (natDecimal n).length = (natDecimal n).data.length := rfl
  rw [padLeftZeros_data_length]
  omega

/-- The millisecond field always has exactly three characters: the
padded microsecond field has at least six. -/
theorem milliPart_length (t : Timestamp) : (milliPart t).length = 3 := by
  show ((padLeftZeros 6 t.micro).data.take 3).length = 3
  rw [List.length_take, padLeftZeros_data_length]
  omega

/-- The `[:-3]` truncation splits the stamp into the seconds part, the
dot, and the three leading (millisecond) digits of the `%f` field. -/
theorem retrievedAtStamp_decomp (t : Timestamp) (h : t.micro < 1000000) :
    retrievedAtStamp t = dateSecondsPart t ++ "." ++ milliPart t := by
  have hy : (padLeftZeros 6 t.micro).data.length = 6 :=
    padLeftZeros6_micro_length t.micro h
  have hdata : (strftimeMicro t).data =
      (dateSecondsPart t ++ ".").data ++ (padLeftZeros 6 t.micro).data := by
    rw [strftimeMicro, String.data_append]
  apply String.ext
  unfold retrievedAtStamp pyDropLast3
  simp only []
  rw [hdata, List.length_append, hy, String.data_append]
  have hsplit : ((dateSecondsPart t).data ++ ".".data).length + 6 - 3 =
      ((dateSecondsPart t).data ++ ".".data).length + 3 := by omega
  rw [hsplit, List.take_append]
  rfl

/-- Stripping leaves a list whose head, when present, is not
`'Z'`. -/
theorem rstripZ_getLast?_ne (s : String) :
    (rstripZ s).data.getLast? ≠ some 'Z' := by
  show ((s.data.reverse.dropWhile (fun c => c = 'Z')).reverse).getLast? ≠ some 'Z'
  rw [← List.head?_reverse, List.reverse_reverse]
  intro hcontra
  have := List.head?_dropWhile_not (fun c => decide (c = 'Z')) s.data.reverse
  rw [hcontra] at this
  simp at this

/-- The stripped characters are exactly a trailing run of `'Z'`s. -/
theorem rstripZ_append (s : String) :
    ∃ n, s.data = (rstripZ s).data ++ List.replicate n 'Z' := by
  refine ⟨(s.data.reverse.takeWhile (fun c => c = 'Z')).length, ?_⟩
  have htd : s.data.reverse.takeWhile (fun c => c = 'Z') ++
      s.data.reverse.dropWhile (fun c => c = 'Z') = s.data.reverse :=
    List.takeWhile_append_dropWhile ..
  have hrep : s.data.reverse.takeWhile (fun c => c = 'Z') =
      List.replicate (s.data.reverse.takeWhile (fun c => c = 'Z')).length 'Z' := by
    apply List.eq_replicate_of_mem
    intro b hb
    have := List.mem_takeWhile_imp hb
    simpa using this
  calc s.data = s.data.reverse.reverse := (List.reverse_reverse _).symm
  _ = (s.data.reverse.takeWhile (fun c => c = 'Z') ++
        s.data.reverse.dropWhile (fun c => c = 'Z')).reverse := by rw [htd]
  _ = (s.data.reverse.dropWhile (fun c => c = 'Z')).reverse ++
        (s.data.reverse.takeWhile (fun c => c = 'Z')).reverse := by
        rw [List.reverse_append]
  _ = (rstripZ s).data ++ List.replicate _ 'Z' := by
        rw [← hrep]
        rw [hrep]
        rw [List.reverse_replicate]
        rfl

/-! ## Claim theorems -/

/-- Claim C2: if the metadata lookup raises a 503 failure on every
attempt for one identifier, the loop sleeps and retries exactly 10 times
and re-raises on the 11th consecutive failure, never reaching the script
beyond the 11 failures; and 10 such failures followed by a success still
produce the response after exactly 10 sleeps. -/
theorem claim_C2 :
    (∀ (numKeys key cr : Nat) (rest : List Attempt),
      fetchLoop numKeys key 0 cr
          (List.replicate 11 (Attempt.httpErr "503") ++ rest) =
        .fatal .serviceUnavailableBoundExceeded key
          (List.replicate 10 .sleepServiceUnavailable)) ∧
    (∀ (numKeys key cr : Nat) (items : List Item) (rest : List Attempt),
      fetchLoop numKeys key 0 cr
          (List.replicate 10 (Attempt.httpErr "503") ++ Attempt.success items :: rest) =
        .gotResponse items key (List.replicate 10 .sleepServiceUnavailable)) :=
  ⟨fun numKeys key cr rest => fetchLoop_su_run numKeys key cr rest 10 0 rfl,
   fun numKeys key cr items rest =>
     fetchLoop_su_recover numKeys key cr items rest 10 0 rfl⟩

/-- Claim C3: a 403 failure advances the credential cursor by one,
rebuilds the client and retries the same identifier; with a pool of 3
credentials whose first 2 are rejected, exactly 2 rotation events occur
before the 3rd succeeds; when the cursor reaches the pool length the run
aborts by re-raising, leaving later identifiers unprocessed rather than
skipping the failing one. -/
theorem claim_C3 :
    (∀ (su cr : Nat) (items : List Item),
      fetchLoop 3 0 su cr
          [Attempt.httpErr "403", Attempt.httpErr "403", Attempt.success items] =
        .gotResponse items 2 [.rotateCredential 1, .rotateCredential 2]) ∧
    (∀ (su cr : Nat) (rest : List Attempt),
      fetchLoop 3 0 su cr
          (Attempt.httpErr "403" :: Attempt.httpErr "403" ::
            Attempt.httpErr "403" :: rest) =
        .fatal .credentialsExhausted 3 [.rotateCredential 1, .rotateCredential 2]) ∧
    (∀ (numKeys key su cr : Nat) (t : String) (rest : List Attempt),
      strContains t "403" = true → ¬ key + 1 ≥ numKeys →
      fetchLoop numKeys key su cr (Attempt.httpErr t :: rest) =
        consEvent (.rotateCredential (key + 1))
          (fetchLoop numKeys (key + 1) su cr rest)) ∧
    (∀ (rest : List PendingIdentifier) (now : Timestamp),
      processAll 3 0
          (⟨"v", now, [Attempt.httpErr "403", Attempt.httpErr "403",
            Attempt.httpErr "403"]⟩ :: rest) =
        ⟨[], 3, .aborted .credentialsExhausted⟩) := by
  have h403 : strContains "403" "403" = true := by decide
  refine ⟨?_, ?_, ?_, ?_⟩
  · intro su cr items
    rw [fetchLoop_auth_rotate 3 0 su cr _ _ h403 (by omega),
      fetchLoop_auth_rotate 3 1 su cr _ _ h403 (by omega),
      fetchLoop_success]
    rfl
  · intro su cr rest
    rw [fetchLoop_auth_rotate 3 0 su cr _ _ h403 (by omega),
      fetchLoop_auth_rotate 3 1 su cr _ _ h403 (by omega),
      fetchLoop_auth_exhaust 3 2 su cr _ _ h403 (by omega)]
    rfl
  · intro numKeys key su cr t rest ht hk
    exact fetchLoop_auth_rotate numKeys key su cr t rest ht hk
  · intro rest now
    have hfl : fetchLoop 3 0 0 0
        [Attempt.httpErr "403", Attempt.httpErr "403", Attempt.httpErr "403"] =
        .fatal .credentialsExhausted 3 [.rotateCredential 1, .rotateCredential 2] := by
      decide
    unfold processAll processOne
    rw [hfl]

/-- Claim C3 witness: one rotation step at concrete inputs. -/
theorem claim_C3_witness :
    strContains "403" "403" = true ∧ ¬ (0 : Nat) + 1 ≥ 2 ∧
    fetchLoop 2 0 0 0 [Attempt.httpErr "403", Attempt.success []] =
      consEvent (.rotateCredential 1) (fetchLoop 2 1 0 0 [Attempt.success []]) :=
  ⟨by decide, by decide,
   claim_C3.2.2.1 2 0 0 0 "403" [Attempt.success []] (by decide) (by decide)⟩

/-- Claim C9: failures are classified in a fixed order — connection
reset (handled by sleep, rebuild and retry; a socket error with another
errno is immediately fatal), then the 403 marker, then the 503 marker,
and unmatched failures are immediately fatal with no retry; an error
text carrying both markers takes the authorization path. -/
theorem claim_C9 :
    (∀ (numKeys key su cr : Nat) (rest : List Attempt), cr + 1 ≤ 10 →
      fetchLoop numKeys key su cr (Attempt.socketErr ECONNRESET :: rest) =
        consEvent .sleepConnectionReset (fetchLoop numKeys key su (cr + 1) rest)) ∧
    (∀ (numKeys key su cr : Nat) (rest : List Attempt) (en : Int),
      en ≠ ECONNRESET →
      fetchLoop numKeys key su cr (Attempt.socketErr en :: rest) =
        .fatal .otherSocketError key []) ∧
    (∀ (numKeys key su cr : Nat) (rest : List Attempt) (t : String),
      strContains t "403" = true →
      fetchLoop numKeys key su cr (Attempt.httpErr t :: rest) =
        (if key + 1 ≥ numKeys then .fatal .credentialsExhausted (key + 1) []
         else consEvent (.rotateCredential (key + 1))
           (fetchLoop numKeys (key + 1) su cr rest))) ∧
    (∀ (numKeys key su cr : Nat) (rest : List Attempt) (t : String),
      strContains t "403" = false → strContains t "503" = false →
      fetchLoop numKeys key su cr (Attempt.httpErr t :: rest) =
        .fatal .unclassifiedHttpError key []) ∧
    (strContains "HttpError 403: quota, retry after 503" "403" = true ∧
     strContains "HttpError 403: quota, retry after 503" "503" = true ∧
     fetchLoop 2 0 0 0
         [Attempt.httpErr "HttpError 403: quota, retry after 503",
          Attempt.success []] =
       .gotResponse [] 1 [.rotateCredential 1]) := by
  refine ⟨?_, ?_, ?_, ?_, by decide, by decide, by decide⟩
  · intro numKeys key su cr rest hcr
    exact fetchLoop_reset_sleep numKeys key su cr rest hcr
  · intro numKeys key su cr rest en hen
    exact fetchLoop_sock_other numKeys key su cr en rest hen
  · intro numKeys key su cr rest t ht
    by_cases hk : key + 1 ≥ numKeys
    · rw [if_pos hk]
      exact fetchLoop_auth_exhaust numKeys key su cr t rest ht hk
    · rw [if_neg hk]
      exact fetchLoop_auth_rotate numKeys key su cr t rest ht hk
  · intro numKeys key su cr rest t h403 h503
    exact fetchLoop_unclassified numKeys key su cr t rest h403 h503

/-- Claim C9 witness: the classification at concrete inputs. -/
theorem claim_C9_witness :
    ((0 : Nat) + 1 ≤ 10 ∧
      fetchLoop 1 0 0 0 [Attempt.socketErr ECONNRESET, Attempt.success []] =
        consEvent .sleepConnectionReset (fetchLoop 1 0 0 1 [Attempt.success []])) ∧
    ((5 : Int) ≠ ECONNRESET ∧
      fetchLoop 1 0 0 0 [Attempt.socketErr 5] = .fatal .otherSocketError 0 []) ∧
    (strContains "boom" "403" = false ∧ strContains "boom" "503" = false ∧
      fetchLoop 1 0 0 0 [Attempt.httpErr "boom"] =
        .fatal .unclassifiedHttpError 0 []) :=
  ⟨⟨by decide, claim_C9.1 1 0 0 0 [Attempt.success []] (by decide)⟩,
   ⟨by decide, claim_C9.2.1 1 0 0 0 [] 5 (by decide)⟩,
   ⟨by decide, by decide,
    claim_C9.2.2.2.1 1 0 0 0 [] "boom" (by decide) (by decide)⟩⟩

/-- Claim C1 counterexample: with a response carrying two items the
loop emits two records for the one identifier, refuting "never more
than one record per identifier". -/
theorem claim_C1_counterexample :
    (processOne 1 0 ⟨"v", ⟨2021, 5, 1, 0, 0, 0, 0⟩,
        [Attempt.success [⟨"a", "p"⟩, ⟨"b", "q"⟩]]⟩).outcome = RunOutcome.completed ∧
    ¬ (processOne 1 0 ⟨"v", ⟨2021, 5, 1, 0, 0, 0, 0⟩,
        [Attempt.success [⟨"a", "p"⟩, ⟨"b", "q"⟩]]⟩).records.length = 1 := by
  decide

/-- Claim C1 (amended): for every pending identifier whose loop
completes, at least one record is produced — exactly one tombstone when
the item list is empty, and one snippet per item otherwise, so the
record count is `max 1 (number of items)`. -/
theorem claim_C1 :
    (∀ videoId stamp, emitRecords videoId stamp [] =
      [Record.tombstone videoId stamp unavailableDescription]) ∧
    (∀ videoId stamp (items : List Item),
      (emitRecords videoId stamp items).length = max 1 items.length) ∧
    (∀ (numKeys key : Nat) (p : PendingIdentifier),
      (processOne numKeys key p).outcome = RunOutcome.completed →
      1 ≤ (processOne numKeys key p).records.length) := by
  refine ⟨fun v st => rfl, fun v st items => emitRecords_length v st items, ?_⟩
  intro numKeys key p hout
  unfold processOne at hout ⊢
  cases hfl : fetchLoop numKeys key 0 0 p.script with
  | gotResponse items k evs =>
    show 1 ≤ (emitRecords p.videoId (retrievedAtStamp p.now) items).length
    rw [emitRecords_length]
    omega
  | fatal r k evs => rw [hfl] at hout; simp at hout
  | outOfScript k evs => rw [hfl] at hout; simp at hout

/-- Claim C1 witness: a completed identifier yields at least one record. -/
theorem claim_C1_witness :
    (processOne 1 0 ⟨"w", ⟨2021, 5, 1, 0, 0, 0, 0⟩,
        [Attempt.success []]⟩).outcome = RunOutcome.completed ∧
    1 ≤ (processOne 1 0 ⟨"w", ⟨2021, 5, 1, 0, 0, 0, 0⟩,
        [Attempt.success []]⟩).records.length :=
  ⟨by decide, claim_C1.2.2 1 0 _ (by decide)⟩

/-- Claim C4: a run uploads its object exactly when the fetch loop
completed; on completion the catalog statements are drop, create,
partition-repair in that order, and a non-completed run uploads nothing
and issues no catalog statement. -/
theorem claim_C4 (numKeys : Nat) (pending : List PendingIdentifier)
    (r : RunResult) (hr : collectVideoSnippets numKeys pending = r) :
    (r.uploaded = true ↔ r.outcome = RunOutcome.completed) ∧
    (r.outcome = RunOutcome.completed →
      r.catalogOps = [CatalogOp.dropTable "youtube_video_snippet",
        CatalogOp.createTable "youtube_video_snippet",
        CatalogOp.repairTable "youtube_video_snippet"]) ∧
    (r.outcome ≠ RunOutcome.completed →
      r.uploaded = false ∧ r.catalogOps = []) := by
  subst hr
  unfold collectVideoSnippets
  cases houtcome : (processAll numKeys 0 pending).outcome with
  | completed => simp [houtcome]
  | aborted reason => simp [houtcome]
  | incomplete => simp [houtcome]

/-- Claim C4 witness: the publication gating at a concrete run. -/
theorem claim_C4_witness :
    (((collectVideoSnippets 1 []).uploaded = true ↔
        (collectVideoSnippets 1 []).outcome = RunOutcome.completed) ∧
      ((collectVideoSnippets 1 []).outcome = RunOutcome.completed →
        (collectVideoSnippets 1 []).catalogOps =
          [CatalogOp.dropTable "youtube_video_snippet",
           CatalogOp.createTable "youtube_video_snippet",
           CatalogOp.repairTable "youtube_video_snippet"]) ∧
      ((collectVideoSnippets 1 []).outcome ≠ RunOutcome.completed →
        (collectVideoSnippets 1 []).uploaded = false ∧
          (collectVideoSnippets 1 []).catalogOps = [])) :=
  claim_C4 1 [] _ rfl

/-- Claim C5 counterexample: with no table existing at all — in
particular the stream source's `validated_url` absent — identifier
discovery still issues the stream-source query instead of skipping it. -/
theorem claim_C5_counterexample :
    (fun _ : String => false) "validated_url" = false ∧
    SourceQuery.twitterStream false ∈ buildQueries (fun _ => false) := by
  decide

/-- Claim C5 (amended): only the related-video source is optional — its
query is included exactly when `youtube_related_video` exists — while
the stream-source query is always issued; the output table's existence
only selects the exclusion-filter variant of both queries. -/
theorem claim_C5 (tableExists : String → Bool) :
    SourceQuery.twitterStream (tableExists "youtube_video_snippet") ∈
      buildQueries tableExists ∧
    (SourceQuery.youtubeRelated (tableExists "youtube_video_snippet") ∈
        buildQueries tableExists ↔
      tableExists "youtube_related_video" = true) := by
  unfold buildQueries
  cases hrel : tableExists "youtube_related_video" <;> simp [hrel]

/-- Claim C6: every snippet record carries the publish timestamp with
trailing `'Z'` stripped and `'T'` turned into a space; in particular
`"2021-05-01T12:00:00Z"` becomes `"2021-05-01 12:00:00"`. -/
theorem claim_C6 :
    (∀ videoId stamp (items : List Item), items ≠ [] →
      emitRecords videoId stamp items = items.map (fun it =>
        Record.snippet (normalizePublishedAt it.publishedAt) it.payload stamp)) ∧
    normalizePublishedAt "2021-05-01T12:00:00Z" = "2021-05-01 12:00:00" := by
  constructor
  · intro v st items hne
    unfold emitRecords
    rw [if_neg (fun h => hne (List.length_eq_zero.mp h))]
  · decide

/-- Claim C6 witness: the normalization on a concrete emitted snippet. -/
theorem claim_C6_witness :
    ([⟨"2021-05-01T12:00:00Z", "p"⟩] : List Item) ≠ [] ∧
    emitRecords "v" "st" [⟨"2021-05-01T12:00:00Z", "p"⟩] =
      [Record.snippet "2021-05-01 12:00:00" "p" "st"] := by
  refine ⟨by decide, ?_⟩
  rw [claim_C6.1 "v" "st" _ (by decide)]
  decide

/-- Claim C7: an empty item list yields exactly one tombstone carrying
the requested identifier, the fixed unavailable-video description and a
`retrieved_at` stamp; the stamp is the seconds part followed by exactly
three fractional digits (millisecond precision). -/
theorem claim_C7 :
    (∀ videoId stamp, emitRecords videoId stamp [] =
      [Record.tombstone videoId stamp unavailableDescription]) ∧
    (∀ (numKeys key : Nat) (t : Timestamp),
      processOne numKeys key ⟨"abc123XYZ-_", t, [Attempt.success []]⟩ =
        ⟨[Record.tombstone "abc123XYZ-_" (retrievedAtStamp t)
            unavailableDescription], key, RunOutcome.completed⟩) ∧
    (∀ t : Timestamp, t.micro < 1000000 →
      retrievedAtStamp t = dateSecondsPart t ++ "." ++ milliPart t ∧
      (milliPart t).length = 3) :=
  ⟨fun _ _ => rfl,
   fun _ _ _ => rfl,
   fun t ht => ⟨retrievedAtStamp_decomp t ht, milliPart_length t⟩⟩

/-- Claim C7 witness: the tombstone and the stamp at a concrete time. -/
theorem claim_C7_witness :
    (⟨2021, 5, 1, 12, 0, 0, 123456⟩ : Timestamp).micro < 1000000 ∧
    (retrievedAtStamp ⟨2021, 5, 1, 12, 0, 0, 123456⟩ =
      dateSecondsPart ⟨2021, 5, 1, 12, 0, 0, 123456⟩ ++ "." ++
        milliPart ⟨2021, 5, 1, 12, 0, 0, 123456⟩ ∧
     (milliPart (⟨2021, 5, 1, 12, 0, 0, 123456⟩ : Timestamp)).length = 3) :=
  ⟨by decide, claim_C7.2.2 ⟨2021, 5, 1, 12, 0, 0, 123456⟩ (by decide)⟩

/-- Claim C8: the credential cursor is the initial cursor plus one per
rotation event (plus the final advance of an exhausting authorization
failure), so it never decreases and backoff sleeps leave it unchanged;
starting inside the pool it stays inside the pool on success and stops
at the pool length on exhaustion; and it never decreases across the
whole run. -/
theorem claim_C8 :
    (∀ (numKeys key su cr : Nat) (s : List Attempt),
      (fetchLoop numKeys key su cr s).finalKeyOf =
        key + countRotations (fetchLoop numKeys key su cr s).eventsOf +
          exhaustedBump (fetchLoop numKeys key su cr s)) ∧
    (∀ (numKeys key su cr : Nat) (s : List Attempt),
      key ≤ (fetchLoop numKeys key su cr s).finalKeyOf) ∧
    (∀ (numKeys key su cr : Nat) (s : List Attempt), key < numKeys →
      withinPool numKeys (fetchLoop numKeys key su cr s)) ∧
    (∀ (numKeys key : Nat) (pending : List PendingIdentifier),
      key ≤ (processAll numKeys key pending).finalKey) :=
  ⟨fun numKeys key su cr s => fetchLoop_key_accounting numKeys s key su cr,
   fun numKeys key su cr s => fetchLoop_key_mono numKeys s key su cr,
   fun numKeys key su cr s h => fetchLoop_withinPool numKeys s key su cr h,
   fun numKeys key pending => processAll_key_mono numKeys pending key⟩

/-- Claim C8 witness: the pool invariant at a concrete loop. -/
theorem claim_C8_witness :
    (0 : Nat) < 1 ∧ withinPool 1 (fetchLoop 1 0 0 0 [Attempt.success []]) :=
  ⟨by decide, claim_C8.2.2.1 1 0 0 0 [Attempt.success []] (by decide)⟩

/-- Claim C10: the normalization removes all trailing `'Z'` characters
(the input is the stripped part plus a trailing run of `'Z'`s, and the
result never ends in `'Z'`) and rewrites every `'T'` anywhere to a
space (no `'T'` survives); e.g. three trailing `'Z'`s all vanish and a
second `'T'` deep in the string is also replaced. -/
theorem claim_C10 :
    (∀ s : String,
      'T' ∉ (normalizePublishedAt s).data ∧
      (normalizePublishedAt s).data.getLast? ≠ some 'Z' ∧
      (normalizePublishedAt s).data = (rstripZ s).data.map tToSpace ∧
      ∃ n, s.data = (rstripZ s).data ++ List.replicate n 'Z') ∧
    normalizePublishedAt "2021-05-01T12:00:00ZZZ" = "2021-05-01 12:00:00" ∧
    normalizePublishedAt "aTbTZc" = "a b Zc" := by
  refine ⟨?_, by decide, by decide⟩
  intro s
  refine ⟨?_, ?_, rfl, rstripZ_append s⟩
  · intro hmem
    rcases List.mem_map.mp hmem with ⟨c, _, hc⟩
    by_cases hcT : c = 'T'
    · rw [tToSpace, if_pos hcT] at hc
      exact absurd hc (by decide)
    · rw [tToSpace, if_neg hcT] at hc
      exact hcT hc
  · show ((rstripZ s).data.map tToSpace).getLast? ≠ some 'Z'
    rw [List.getLast?_map]
    cases hlast : (rstripZ s).data.getLast? with
    | none => simp
    | some a =>
      have ha := rstripZ_getLast?_ne s
      rw [hlast] at ha
      have haZ : a ≠ 'Z' := fun h => ha (by rw [h])
      simp only [Option.map_some']
      intro hcontra
      have : tToSpace a = 'Z' := Option.some.inj hcontra
      by_cases hcT : a = 'T'
      · rw [tToSpace, if_pos hcT] at this
        exact absurd this (by decide)
      · rw [tToSpace, if_neg hcT] at this
        exact haZ this

end YVS
